import Mathlib

/-!
Shallow embedding of the SNAK scorecard backend (`src/main.py`): the
request-validation and notification pipeline of the FastAPI service.
Bytes are modelled as `Nat` (values < 256), byte strings as `List Nat`,
Python strings as Lean `String`.  The ambient clock reading
(`datetime.now().strftime(...)`) is passed as an explicit `ts` parameter.
The email provider (`resend.Emails.send`), which reports failure by
raising, is modelled as an oracle giving the outcome of the n-th send
call of a request: `Except errMsg id`.
-/

/-- Configuration constant `MAX_FILE_SIZE = 16 * 1024 * 1024` from `src/main.py`. -/
def MAX_FILE_SIZE : Nat := 16 * 1024 * 1024

/-- Configuration constant `ALLOWED_EXTENSIONS = {".xlsx", ".xls"}`. -/
def ALLOWED_EXTENSIONS : List String := [".xlsx", ".xls"]

/-- Default of `EMAIL_CONFIG["from_email"]` (env override is deployment input, modelled by its default). -/
def EMAIL_CONFIG_from_email : String := "SNAK Scorecard <noreply@snak.vc>"

/-- Default of `EMAIL_CONFIG["to_email"]`: the configured operator address. -/
def EMAIL_CONFIG_to_email : String := "contact@snak.vc"

/-- Characters removed by Python `str.strip()`; ASCII whitespace (non-ASCII Unicode whitespace is not modelled). -/
def isPySpace (c : Char) : Bool :=
  c = ' ' || c = '\t' || c = '\n' || c = '\r' || c = '\x0b' || c = '\x0c'

/-- Python `s.strip()`. -/
def pyStrip (s : String) : String :=
  String.mk (((s.toList.dropWhile isPySpace).reverse.dropWhile isPySpace).reverse)

/-- Python `s.lower()` (ASCII case mapping, the relevant fragment for the
extension comparison). -/
def pyLower (s : String) : String :=
  String.mk (s.toList.map Char.toLower)

/-- Index of the last occurrence of `ch` (Python `str.rfind`, `none` for -1). -/
def lastIndexOf (ch : Char) : List Char → Option Nat
  | [] => none
  | c :: cs =>
    match lastIndexOf ch cs with
    | some i => some (i + 1)
    | none => if c = ch then some 0 else none

/-- Extension component of Python `os.path.splitext(p)[1]` (posix rules, `sep = '/'`):
the part of `p` from its last dot on, provided that dot lies after the last
separator and some non-dot character stands between them. -/
def pySplitextExt (p : String) : String :=
  let l := p.toList
  match lastIndexOf '.' l with
  | none => ""
  | some dotIndex =>
    let sepIndex : Option Nat := lastIndexOf '/' l
    let start : Nat :=
      match sepIndex with
      | none => 0
      | some s => s + 1
    let afterSep : Bool :=
      match sepIndex with
      | none => true
      | some s => decide (s < dotIndex)
    if afterSep then
      if (List.range (dotIndex - start)).any (fun k => (l.getD (start + k) '.') != '.') then
        String.mk (l.drop dotIndex)
      else ""
    else ""

/-- Left-pad a digit string with zeros to length `k`. -/
def padZeros (k : Nat) (s : String) : String :=
  String.mk (List.replicate (k - s.length) '0') ++ s

/-- Python f-string formatting `{bytes / 1024 / 1024:.df}`.  Exact model:
`bytes / 2^20` is an exact binary double for every realistic `bytes`
(< 2^53), so `:.df` rounds the exact rational `bytes * 10^d / 2^20`
to the nearest integer, ties to even. -/
def fmtFixed (d : Nat) (bytes : Nat) : String :=
  let n := bytes * 10 ^ d
  let den := 1024 * 1024
  let q := n / den
  let r := n % den
  let rounded := if 2 * r < den then q else if 2 * r > den then q + 1 else if q % 2 = 0 then q else q + 1
  if d = 0 then toString rounded
  else toString (rounded / 10 ^ d) ++ "." ++ padZeros d (toString (rounded % 10 ^ d))

/-- The base64 alphabet used by `base64.b64encode`. -/
def b64Alphabet : List Char :=
  "ABCDEFGHIJKLMNOPQRSTUVWXYZabcdefghijklmnopqrstuvwxyz0123456789+/".toList

/-- Character for a 6-bit group. -/
def b64char (n : Nat) : Char := b64Alphabet.getD n '='

/-- Python `base64.b64encode(bs).decode()`. -/
def b64encode : List Nat → String
  | [] => ""
  | [a] =>
    let n := a * 65536
    String.mk [b64char (n / 262144), b64char (n / 4096 % 64), '=', '=']
  | [a, b] =>
    let n := a * 65536 + b * 256
    String.mk [b64char (n / 262144), b64char (n / 4096 % 64), b64char (n / 64 % 64), '=']
  | a :: b :: c :: rest =>
    let n := a * 65536 + b * 256 + c
    String.mk [b64char (n / 262144), b64char (n / 4096 % 64), b64char (n / 64 % 64), b64char (n % 64)] ++
      b64encode rest

/-- One payload handed to `resend.Emails.send`; `fromAddr` and `toAddr`
model the `"from"` and `"to"` keys (both Lean keywords); `attachments` pairs a
filename with base64-encoded content, `[]` when the `"attachments"` key is
absent. -/
structure EmailMessage where
  fromAddr : String
  toAddr : List String
  subject : String
  html : String
  attachments : List (String × String)
deriving DecidableEq, Repr

/-- Observable effect of the send pipeline: a provider call or an `asyncio.sleep`. -/
inductive Event where
  | send (msg : EmailMessage)
  | sleep (seconds : Nat)
deriving DecidableEq, Repr

/-- `fastapi.UploadFile` as the handler sees it: the (optional) client
filename, and the outcome of `await excelFile.read()` (an `Except` since a
read may raise, which the outermost handler turns into a 500). -/
structure UploadFile where
  filename : Option String
  content : Except String (List Nat)

/-- Exceptions escaping the handler body: `fastapi.HTTPException` carries a
status code and detail, anything else carries its message. -/
inductive HandlerExc where
  | httpExc (status_code : Nat) (detail : String)
  | otherExc (msg : String)
deriving DecidableEq, Repr

/-- The HTTP response as observed by the client: status code and payload
string (the success `message` or the error `detail`). -/
structure Response where
  status_code : Nat
  body : String
deriving DecidableEq, Repr

/-- Literal text of the f-string `html_content_to_snak` up to the
`{company_name}` interpolation. -/
def snakSeg1 : String :=
  "\n        <h2>🎯 New SNAK Scorecard Analysis Request</h2>\n        \n        <div style=\"background: #f8f9fa; padding: 20px; border-radius: 8px; margin: 20px 0;\">\n            <h3>📋 Submission Details:</h3>\n            <p><strong>Company Name:</strong> "

/-- Literal text between `{company_name}` and `{user_email}`. -/
def snakSeg2 : String :=
  "</p>\n            <p><strong>Contact Email:</strong> "

/-- Literal text between `{user_email}` and the timestamp interpolation. -/
def snakSeg3 : String :=
  "</p>\n            <p><strong>Submission Time:</strong> "

/-- Literal text between the timestamp interpolation and `{filename}`. -/
def snakSeg4 : String :=
  "</p>\n            <p><strong>File Name:</strong> "

/-- Literal text between `{filename}` and the file-size interpolation. -/
def snakSeg5 : String :=
  "</p>\n            <p><strong>File Size:</strong> "

/-- Literal text of `html_content_to_snak` after the file-size interpolation. -/
def snakSeg6 : String :=
  " MB</p>\n        </div>\n        \n        <div style=\"background: #e3f2fd; padding: 15px; border-radius: 8px; margin: 20px 0;\">\n            <h3>📊 Required Excel Fields:</h3>\n            <ul>\n                <li><strong>buyer_id</strong> - Unique identifier for buyers</li>\n                <li><strong>seller_id</strong> - Unique identifier for sellers</li>\n                <li><strong>purchase_date</strong> - Date of transaction</li>\n                <li><strong>net_revenue</strong> - Revenue amount</li>\n            </ul>\n        </div>\n        \n        <p>Please find the attached Excel file for scorecard analysis.</p>\n        \n        <hr style=\"margin: 30px 0;\">\n        <p style=\"color: #666; font-size: 14px;\">\n            <em>Best regards,<br>\n            SNAK Scorecard System</em>\n        </p>\n        "

/-- The operator notification body: the f-string `html_content_to_snak` of
`send_email_with_attachment`, with `ts` standing for the interpolated
`datetime.now().strftime(...)` (format %Y-%m-%d %H:%M:%S) and `byteLength` for
`len(file_content)`. -/
def htmlContentToSnak (company_name user_email ts filename : String) (byteLength : Nat) : String :=
  snakSeg1 ++ company_name ++ snakSeg2 ++ user_email ++ snakSeg3 ++ ts ++ snakSeg4 ++
    filename ++ snakSeg5 ++ fmtFixed 2 byteLength ++ snakSeg6

/-- Literal text of the f-string `html_content_to_user` up to the
`{company_name}` interpolation. -/
def userSeg1 : String :=
  "\n        <div style=\"font-family: \x27Segoe UI\x27, Tahoma, Geneva, Verdana, sans-serif; max-width: 600px; margin: 0 auto;\">\n            <div style=\"background: linear-gradient(135deg, #667eea 0%, #764ba2 100%); padding: 30px; text-align: center; border-radius: 10px 10px 0 0;\">\n                <h1 style=\"color: white; font-size: 2.5rem; margin: 0; font-weight: 700;\">SNAK Machine</h1>\n                <p style=\"color: white; font-size: 1.2rem; margin: 10px 0 0 0; opacity: 0.9;\">Scorecard Analysis</p>\n            </div>\n            \n            <div style=\"background: white; padding: 40px; border-radius: 0 0 10px 10px; box-shadow: 0 4px 6px rgba(0,0,0,0.1);\">\n                <h2 style=\"color: #2c3e50; margin-bottom: 20px;\">🎉 Submission Received Successfully!</h2>\n                \n                <p style=\"color: #34495e; font-size: 1.1rem; line-height: 1.6;\">\n                    Hi there <strong>"

/-- Literal text of `html_content_to_user` between `{company_name}` and `{filename}`. -/
def userSeg2 : String :=
  "</strong> team,\n                </p>\n                \n                <p style=\"color: #34495e; font-size: 1.1rem; line-height: 1.6;\">\n                    Great news! We\x27ve successfully received your scorecard data submission.\n                </p>\n                \n                    <h3 style=\"color: #2c3e50;\">📋 What happens next:</h3>\n                    <ul style=\"color: #34495e; line-height: 1.8; padding-left: 20px;\">\n                        <li>🔥 <strong>The SNAK Machine is now running</strong> your analysis</li>\n                        <li>📊 Our team will process your data and generate insights</li>\n                        <li>📧 <strong>Expect your results within 24 hours</strong></li>\n                        <li>🎯 You\x27ll receive a detailed scorecard report via email</li>\n                    </ul>\n                \n                \n                <div style=\"background: #e8f5e8; padding: 15px; border-radius: 8px; margin: 25px 0;\">\n                    <p style=\"color: #2d5a27; margin: 0; font-weight: 600;\">\n                        ✅ <strong>File received:</strong> "

/-- Literal text between `{filename}` and the one-decimal file-size interpolation. -/
def userSeg3 : String :=
  " ("

/-- Literal text of `html_content_to_user` after the file-size interpolation. -/
def userSeg4 : String :=
  " MB)\n                    </p>\n                </div>\n                \n                <p style=\"color: #34495e; font-size: 1rem; line-height: 1.6;\">\n                    If you have any questions feel free to reach out to us.\n                </p>\n                \n                <div style=\"text-align: center; margin: 30px 0;\">\n                    <div style=\"background: linear-gradient(135deg, #667eea 0%, #764ba2 100%); color: white; padding: 15px 25px; border-radius: 25px; display: inline-block; font-weight: 600;\">\n                        🚀 Analysis in progress...\n                    </div>\n                </div>\n                \n                <hr style=\"border: none; border-top: 1px solid #ecf0f1; margin: 30px 0;\">\n                \n                <p style=\"color: #7f8c8d; font-size: 0.9rem; text-align: center; margin: 0;\">\n                    Best regards,<br>\n                    <strong>The SNAK Team</strong><br>\n                    \n                </p>\n            </div>\n        </div>\n        "

/-- The submitter confirmation body: the f-string `html_content_to_user`,
which interpolates only `company_name`, `filename` and the one-decimal file
size; it contains no timestamp. -/
def htmlContentToUser (company_name filename : String) (byteLength : Nat) : String :=
  userSeg1 ++ company_name ++ userSeg2 ++ filename ++ userSeg3 ++
    fmtFixed 1 byteLength ++ userSeg4

/-- The operator `EmailMessage` built by `send_email_with_attachment`. -/
def emailToSnakMsg (company_name user_email ts filename : String) (file_content : List Nat) : EmailMessage :=
  { fromAddr := EMAIL_CONFIG_from_email
    toAddr := [EMAIL_CONFIG_to_email]
    subject := company_name ++ " + SNAK Scorecard Request"
    html := htmlContentToSnak company_name user_email ts filename file_content.length
    attachments := [(filename, b64encode file_content)] }

/-- The confirmation `EmailMessage` built by `send_email_with_attachment`. -/
def emailToUserMsg (company_name user_email filename : String) (file_content : List Nat) : EmailMessage :=
  { fromAddr := EMAIL_CONFIG_from_email
    toAddr := [user_email]
    subject := "✅ SNAK Scorecard Submission Confirmed"
    html := htmlContentToUser company_name filename file_content.length
    attachments := [] }

/-- `send_email_with_attachment` of `src/main.py`.  `provider n` is the
outcome of the n-th `resend.Emails.send` call (`.error` models the provider
raising).  The single `try`/`except Exception` maps any raise from either
call to `False`; otherwise both calls ran and it returns `True`.  The second
component is the trace of provider calls and sleeps, in order. -/
def send_email_with_attachment (provider : Nat → Except String String) (ts : String)
    (company_name user_email : String) (file_content : List Nat) (filename : String) :
    Bool × List Event :=
  let email_to_snak := emailToSnakMsg company_name user_email ts filename file_content
  match provider 0 with
  | Except.error _ => (false, [Event.send email_to_snak])
  | Except.ok _ =>
    let email_to_user := emailToUserMsg company_name user_email filename file_content
    match provider 1 with
    | Except.error _ =>
      (false, [Event.send email_to_snak, Event.sleep 1, Event.send email_to_user])
    | Except.ok _ =>
      (true, [Event.send email_to_snak, Event.sleep 1, Event.send email_to_user])

/-- `validate_file` of `src/main.py`: `none` means valid, `some reason` the
rejection message.  Python `not file.filename` is true for both a missing
and an empty filename. -/
def validate_file (filename : Option String) : Option String :=
  match filename with
  | none => some "No file selected"
  | some f =>
    if f = "" then some "No file selected"
    else
      let file_ext := pyLower (pySplitextExt f)
      if file_ext ∉ ALLOWED_EXTENSIONS then
        some "Invalid file type. Please upload .xlsx or .xls files only"
      else none

/-- The body of `submit_scorecard` (everything inside the outer `try`):
either a `Response` or the exception it raises, paired with the trace of
send events. -/
def submit_scorecard_body (provider : Nat → Except String String) (ts : String)
    (companyName email : String) (excelFile : UploadFile) :
    Except HandlerExc Response × List Event :=
  if pyStrip companyName = "" then
    (Except.error (HandlerExc.httpExc 400 "Company name is required"), [])
  else if pyStrip email = "" then
    (Except.error (HandlerExc.httpExc 400 "Email address is required"), [])
  else
    match validate_file excelFile.filename with
    | some file_error => (Except.error (HandlerExc.httpExc 400 file_error), [])
    | none =>
      match excelFile.content with
      | Except.error msg => (Except.error (HandlerExc.otherExc msg), [])
      | Except.ok file_content =>
        if file_content.length > MAX_FILE_SIZE then
          (Except.error (HandlerExc.httpExc 400
            ("File too large. Maximum size is " ++ fmtFixed 0 MAX_FILE_SIZE ++ "MB")), [])
        else
          let sent := send_email_with_attachment provider ts (pyStrip companyName)
            (pyStrip email) file_content (excelFile.filename.getD "")
          if sent.1 then
            (Except.ok
              { status_code := 200,
                body := "Scorecard request submitted successfully! Check your email for confirmation." },
             sent.2)
          else
            (Except.error (HandlerExc.httpExc 500 "Failed to send email. Please try again later."),
             sent.2)

/-- `submit_scorecard` of `src/main.py`: the body wrapped in the outermost
`except HTTPException: raise` / `except Exception as e: ...` boundary,
rendered to the client-visible `Response`. -/
def submit_scorecard (provider : Nat → Except String String) (ts : String)
    (companyName email : String) (excelFile : UploadFile) : Response × List Event :=
  match submit_scorecard_body provider ts companyName email excelFile with
  | (Except.ok resp, tr) => (resp, tr)
  | (Except.error (HandlerExc.httpExc s d), tr) => ({ status_code := s, body := d }, tr)
  | (Except.error (HandlerExc.otherExc m), tr) =>
      ({ status_code := 500, body := "Server error: " ++ m }, tr)

/-- String concatenation is associative (helper for reassociating template bodies). -/
theorem string_append_assoc (a b c : String) : a ++ b ++ c = a ++ (b ++ c) := by
  rcases a with ⟨la⟩
  rcases b with ⟨lb⟩
  rcases c with ⟨lc⟩
  show String.mk (la ++ lb ++ lc) = String.mk (la ++ (lb ++ lc))
  rw [List.append_assoc]

/-- C6: the email-sending boundary is a total boolean function of the provider
outcomes: it succeeds exactly when both provider calls return normally, and any
provider-side raise in either call is mapped to the failure value `false`. -/
theorem send_email_never_raises (provider : Nat → Except String String) (ts : String)
    (company_name user_email : String) (file_content : List Nat) (filename : String) :
    (send_email_with_attachment provider ts company_name user_email file_content filename).1 = true ↔
      (∃ i, provider 0 = Except.ok i) ∧ (∃ j, provider 1 = Except.ok j) := by
  cases h0 : provider 0 <;> cases h1 : provider 1 <;>
    simp [send_email_with_attachment, h0, h1]

/-- C7: per submission the pipeline produces at most two messages, in a fixed
sequential order with a pause between them: first the operator message to the
configured operator address carrying the file bytes (base64-encoded) as an
attachment under the original filename, then the confirmation message to the
submitter carrying no attachment. -/
theorem send_order_fixed (provider : Nat → Except String String) (ts : String)
    (company_name user_email : String) (file_content : List Nat) (filename : String) :
    ((send_email_with_attachment provider ts company_name user_email file_content filename).2 =
        [Event.send (emailToSnakMsg company_name user_email ts filename file_content)] ∨
      (send_email_with_attachment provider ts company_name user_email file_content filename).2 =
        [Event.send (emailToSnakMsg company_name user_email ts filename file_content),
         Event.sleep 1,
         Event.send (emailToUserMsg company_name user_email filename file_content)]) ∧
    (emailToSnakMsg company_name user_email ts filename file_content).toAddr = [EMAIL_CONFIG_to_email] ∧
    (emailToSnakMsg company_name user_email ts filename file_content).attachments =
      [(filename, b64encode file_content)] ∧
    (emailToUserMsg company_name user_email filename file_content).toAddr = [user_email] ∧
    (emailToUserMsg company_name user_email filename file_content).attachments = [] := by
  refine ⟨?_, rfl, rfl, rfl, rfl⟩
  cases h0 : provider 0 <;> cases h1 : provider 1 <;>
    simp [send_email_with_attachment, h0, h1]

/-- C8: message composition is deterministic and total: for one submission the
two operator bodies composed at timestamps `t1` and `t2` share one prefix and
one suffix and differ only in the interpolated timestamp, and the confirmation
body does not depend on the timestamp at all. -/
theorem compose_deterministic_modulo_timestamp (company_name user_email filename : String)
    (byteLength : Nat) (t1 t2 : String) :
    ∃ pre suf : String,
      htmlContentToSnak company_name user_email t1 filename byteLength = pre ++ t1 ++ suf ∧
      htmlContentToSnak company_name user_email t2 filename byteLength = pre ++ t2 ++ suf ∧
      htmlContentToUser company_name filename byteLength =
        htmlContentToUser company_name filename byteLength := by
  refine ⟨snakSeg1 ++ company_name ++ snakSeg2 ++ user_email ++ snakSeg3,
    snakSeg4 ++ filename ++ snakSeg5 ++ fmtFixed 2 byteLength ++ snakSeg6, ?_, ?_, rfl⟩ <;>
    simp only [htmlContentToSnak, string_append_assoc]

/-- C1 (counterexample): with a provider whose first (operator) call succeeds
and whose second (confirmation) call raises, the handler answers HTTP 500, not
200 — the single `try` around both sends turns a confirmation failure into
`False`, so it is not swallowed. -/
theorem confirmation_failure_surfaces_cx :
    ((fun n => if n = 0 then Except.ok "id-1" else Except.error "rate limited") 0 =
        (Except.ok "id-1" : Except String String)) ∧
      (submit_scorecard (fun n => if n = 0 then Except.ok "id-1" else Except.error "rate limited")
          "2024-01-01 00:00:00" "Acme" "a@acme.com"
          { filename := some "report.xlsx", content := Except.ok [1, 2, 3] }).1 =
        { status_code := 500, body := "Failed to send email. Please try again later." } := by
  exact ⟨rfl, by decide⟩

/-- C1 (amended): when every validation passes, the operator send succeeds and
the confirmation send fails, the handler reports HTTP 500 with the generic
failed-to-send detail — success is reported only when both sends succeed. -/
theorem confirmation_failure_also_surfaced (provider : Nat → Except String String)
    (ts companyName email fname : String) (bytes : List Nat)
    (hc : pyStrip companyName ≠ "") (he : pyStrip email ≠ "")
    (hval : validate_file (some fname) = none)
    (hsize : bytes.length ≤ MAX_FILE_SIZE)
    (hop : ∃ i, provider 0 = Except.ok i)
    (hconf : ∃ m, provider 1 = Except.error m) :
    (submit_scorecard provider ts companyName email
        { filename := some fname, content := Except.ok bytes }).1 =
      { status_code := 500, body := "Failed to send email. Please try again later." } := by
  obtain ⟨i, hi⟩ := hop
  obtain ⟨m, hm⟩ := hconf
  have hns : ¬ bytes.length > MAX_FILE_SIZE := by omega
  simp [submit_scorecard, submit_scorecard_body, hc, he, hval, hns,
    send_email_with_attachment, hi, hm]

/-- Witness for `confirmation_failure_also_surfaced` at a concrete submission. -/
theorem confirmation_failure_also_surfaced_witness :
    (submit_scorecard (fun n => if n = 0 then Except.ok "op-id" else Except.error "timeout")
        "2025-06-01 12:00:00" "Globex" "ops@globex.example"
        { filename := some "numbers.xls", content := Except.ok [0, 1] }).1 =
      { status_code := 500, body := "Failed to send email. Please try again later." } :=
  confirmation_failure_also_surfaced _ _ _ _ _ _ (by decide) (by decide) (by decide)
    (by decide) ⟨"op-id", rfl⟩ ⟨"timeout", rfl⟩

/-- C3: when every validation passes and the operator send fails, the handler
returns HTTP 500 with the generic failed-to-send detail and never a success
response, whatever the confirmation call would have done. -/
theorem operator_failure_returns_500 (provider : Nat → Except String String)
    (ts companyName email fname : String) (bytes : List Nat)
    (hc : pyStrip companyName ≠ "") (he : pyStrip email ≠ "")
    (hval : validate_file (some fname) = none)
    (hsize : bytes.length ≤ MAX_FILE_SIZE)
    (hop : ∃ m, provider 0 = Except.error m) :
    (submit_scorecard provider ts companyName email
        { filename := some fname, content := Except.ok bytes }).1 =
      { status_code := 500, body := "Failed to send email. Please try again later." } := by
  obtain ⟨m, hm⟩ := hop
  have hns : ¬ bytes.length > MAX_FILE_SIZE := by omega
  simp [submit_scorecard, submit_scorecard_body, hc, he, hval, hns,
    send_email_with_attachment, hm]

/-- Witness for `operator_failure_returns_500`: operator call fails while the
confirmation call would succeed. -/
theorem operator_failure_returns_500_witness :
    (submit_scorecard (fun n => if n = 0 then Except.error "auth" else Except.ok "conf-id")
        "2025-06-01 12:00:00" "Acme" "a@acme.com"
        { filename := some "report.xlsx", content := Except.ok [7] }).1 =
      { status_code := 500, body := "Failed to send email. Please try again later." } :=
  operator_failure_returns_500 _ _ _ _ _ _ (by decide) (by decide) (by decide)
    (by decide) ⟨"auth", rfl⟩

/-- C2: a send happens only after every validation passed: any send event in
the trace implies non-blank trimmed fields, a passing `validate_file` and a
buffered length within the ceiling; and a filename with a disallowed
lowercased extension is answered 400 with the unsupported-type detail and an
empty trace. -/
theorem no_send_unless_validated (provider : Nat → Except String String)
    (ts companyName email : String) (excelFile : UploadFile) :
    (∀ m : EmailMessage,
        Event.send m ∈ (submit_scorecard provider ts companyName email excelFile).2 →
        pyStrip companyName ≠ "" ∧ pyStrip email ≠ "" ∧
        validate_file excelFile.filename = none ∧
        ∃ bytes, excelFile.content = Except.ok bytes ∧ bytes.length ≤ MAX_FILE_SIZE) ∧
    (∀ fname, excelFile.filename = some fname →
        pyStrip companyName ≠ "" → pyStrip email ≠ "" → fname ≠ "" →
        pyLower (pySplitextExt fname) ∉ ALLOWED_EXTENSIONS →
        (submit_scorecard provider ts companyName email excelFile).1 =
          { status_code := 400,
            body := "Invalid file type. Please upload .xlsx or .xls files only" } ∧
        (submit_scorecard provider ts companyName email excelFile).2 = []) := by
  constructor
  · intro m hm
    by_cases h1 : pyStrip companyName = ""
    · simp [submit_scorecard, submit_scorecard_body, h1] at hm
    by_cases h2 : pyStrip email = ""
    · simp [submit_scorecard, submit_scorecard_body, h1, h2] at hm
    cases hv : validate_file excelFile.filename with
    | some err =>
      simp [submit_scorecard, submit_scorecard_body, h1, h2, hv] at hm
    | none =>
      cases hcont : excelFile.content with
      | error msg =>
        simp [submit_scorecard, submit_scorecard_body, h1, h2, hv, hcont] at hm
      | ok bytes =>
        by_cases hs : bytes.length > MAX_FILE_SIZE
        · simp [submit_scorecard, submit_scorecard_body, h1, h2, hv, hcont, hs] at hm
        · exact ⟨h1, h2, rfl, bytes, rfl, Nat.not_lt.mp hs⟩
  · intro fname hfn hc he hne hext
    have hv : validate_file excelFile.filename =
        some "Invalid file type. Please upload .xlsx or .xls files only" := by
      rw [hfn]
      simp [validate_file, hne, hext]
    constructor <;> simp [submit_scorecard, submit_scorecard_body, hc, he, hv]

/-- Witness for `no_send_unless_validated`: a `.csv` upload is rejected with
the unsupported-type detail and no send occurs. -/
theorem no_send_unless_validated_witness :
    (submit_scorecard (fun _ => Except.ok "id") "2025-06-01 12:00:00" "Acme" "a@acme.com"
        { filename := some "data.csv", content := Except.ok [1] }).1 =
      { status_code := 400,
        body := "Invalid file type. Please upload .xlsx or .xls files only" } ∧
    (submit_scorecard (fun _ => Except.ok "id") "2025-06-01 12:00:00" "Acme" "a@acme.com"
        { filename := some "data.csv", content := Except.ok [1] }).2 = [] :=
  (no_send_unless_validated _ _ _ _ _).2 "data.csv" rfl (by decide) (by decide)
    (by decide) (by decide)

/-- C4: a buffered body strictly larger than the 16 MiB ceiling is answered
400 with the detail naming the 16 MB limit, and no send occurs; the check is
on the length of the buffered bytes themselves (the model carries no
content-length header). -/
theorem too_large_rejected (provider : Nat → Except String String)
    (ts companyName email fname : String) (bytes : List Nat)
    (hc : pyStrip companyName ≠ "") (he : pyStrip email ≠ "")
    (hval : validate_file (some fname) = none)
    (hs : bytes.length > MAX_FILE_SIZE) :
    (submit_scorecard provider ts companyName email
        { filename := some fname, content := Except.ok bytes }).1 =
      { status_code := 400, body := "File too large. Maximum size is 16MB" } ∧
    (submit_scorecard provider ts companyName email
        { filename := some fname, content := Except.ok bytes }).2 = [] := by
  have hfmt : "File too large. Maximum size is " ++ fmtFixed 0 MAX_FILE_SIZE ++ "MB" =
      "File too large. Maximum size is 16MB" := by decide
  constructor <;> simp [submit_scorecard, submit_scorecard_body, hc, he, hval, hs, hfmt]

/-- Witness for `too_large_rejected` at a body one byte over the ceiling. -/
theorem too_large_rejected_witness :
    (submit_scorecard (fun _ => Except.ok "id") "2025-06-01 12:00:00" "Acme" "a@acme.com"
        { filename := some "big.xlsx",
          content := Except.ok (List.replicate (MAX_FILE_SIZE + 1) 0) }).1 =
      { status_code := 400, body := "File too large. Maximum size is 16MB" } ∧
    (submit_scorecard (fun _ => Except.ok "id") "2025-06-01 12:00:00" "Acme" "a@acme.com"
        { filename := some "big.xlsx",
          content := Except.ok (List.replicate (MAX_FILE_SIZE + 1) 0) }).2 = [] :=
  too_large_rejected _ _ _ _ _ _ (by decide) (by decide) (by decide)
    (by rw [List.length_replicate]; omega)

/-- C5: a blank trimmed `companyName` is answered 400 "Company name is
required" and a blank trimmed `email` (with a non-blank company) is answered
400 "Email address is required", in both cases before any file handling: the
response and empty trace hold for every uploaded file whatsoever. -/
theorem empty_fields_rejected (provider : Nat → Except String String)
    (ts companyName email : String) (excelFile : UploadFile) :
    (pyStrip companyName = "" →
      (submit_scorecard provider ts companyName email excelFile).1 =
        { status_code := 400, body := "Company name is required" } ∧
      (submit_scorecard provider ts companyName email excelFile).2 = []) ∧
    (pyStrip companyName ≠ "" → pyStrip email = "" →
      (submit_scorecard provider ts companyName email excelFile).1 =
        { status_code := 400, body := "Email address is required" } ∧
      (submit_scorecard provider ts companyName email excelFile).2 = []) := by
  constructor
  · intro h1
    constructor <;> simp [submit_scorecard, submit_scorecard_body, h1]
  · intro h1 h2
    constructor <;> simp [submit_scorecard, submit_scorecard_body, h1, h2]

/-- Witness for `empty_fields_rejected`: a whitespace-only company name is
rejected even though the attached file is itself invalid. -/
theorem empty_fields_rejected_witness :
    (submit_scorecard (fun _ => Except.ok "id") "2025-06-01 12:00:00" "   " "a@acme.com"
        { filename := some "data.csv", content := Except.error "unread" }).1 =
      { status_code := 400, body := "Company name is required" } ∧
    (submit_scorecard (fun _ => Except.ok "id") "2025-06-01 12:00:00" "   " "a@acme.com"
        { filename := some "data.csv", content := Except.error "unread" }).2 = [] :=
  (empty_fields_rejected _ _ _ _ _).1 (by decide)

/-- C9: the outermost boundary re-raises `HTTPException` unchanged — the
client sees exactly the raised status code and detail — while any other
exception becomes the 500 "Server error: ..." response. -/
theorem http_exceptions_pass_through (provider : Nat → Except String String)
    (ts companyName email : String) (excelFile : UploadFile) :
    (∀ s d tr, submit_scorecard_body provider ts companyName email excelFile =
        (Except.error (HandlerExc.httpExc s d), tr) →
      submit_scorecard provider ts companyName email excelFile =
        ({ status_code := s, body := d }, tr)) ∧
    (∀ m tr, submit_scorecard_body provider ts companyName email excelFile =
        (Except.error (HandlerExc.otherExc m), tr) →
      submit_scorecard provider ts companyName email excelFile =
        ({ status_code := 500, body := "Server error: " ++ m }, tr)) := by
  refine ⟨fun s d tr h => ?_, fun m tr h => ?_⟩ <;> simp [submit_scorecard, h]

/-- Witness for `http_exceptions_pass_through`: a failing body read is
reported as the 500 "Server error" response carrying the fault text. -/
theorem http_exceptions_pass_through_witness :
    (submit_scorecard (fun _ => Except.ok "id") "2025-06-01 12:00:00" "Acme" "a@acme.com"
        { filename := some "report.xlsx", content := Except.error "disk full" }) =
      ({ status_code := 500, body := "Server error: " ++ "disk full" }, []) :=
  (http_exceptions_pass_through _ _ _ _ _).2 "disk full" [] rfl

/-- C10: the ceiling is strict: a buffered body of exactly 16 MiB with all
other validations passing is not rejected as too large — the handler proceeds
to the sends (non-empty trace) and answers with the send outcome. -/
theorem exact_limit_not_rejected (provider : Nat → Except String String)
    (ts companyName email fname : String) (bytes : List Nat)
    (hc : pyStrip companyName ≠ "") (he : pyStrip email ≠ "")
    (hval : validate_file (some fname) = none)
    (hlen : bytes.length = MAX_FILE_SIZE) :
    ((submit_scorecard provider ts companyName email
        { filename := some fname, content := Except.ok bytes }).1 =
      { status_code := 200,
        body := "Scorecard request submitted successfully! Check your email for confirmation." } ∨
     (submit_scorecard provider ts companyName email
        { filename := some fname, content := Except.ok bytes }).1 =
      { status_code := 500, body := "Failed to send email. Please try again later." }) ∧
    (submit_scorecard provider ts companyName email
        { filename := some fname, content := Except.ok bytes }).2 ≠ [] := by
  have hns : ¬ bytes.length > MAX_FILE_SIZE := by omega
  constructor
  · cases h0 : provider 0 with
    | error m =>
      exact Or.inr (by
        simp [submit_scorecard, submit_scorecard_body, hc, he, hval, hns,
          send_email_with_attachment, h0])
    | ok i =>
      cases h1 : provider 1 with
      | error m =>
        exact Or.inr (by
          simp [submit_scorecard, submit_scorecard_body, hc, he, hval, hns,
            send_email_with_attachment, h0, h1])
      | ok j =>
        exact Or.inl (by
          simp [submit_scorecard, submit_scorecard_body, hc, he, hval, hns,
            send_email_with_attachment, h0, h1])
  · cases h0 : provider 0 with
    | error m =>
      simp [submit_scorecard, submit_scorecard_body, hc, he, hval, hns,
        send_email_with_attachment, h0]
    | ok i =>
      cases h1 : provider 1 with
      | error m =>
        simp [submit_scorecard, submit_scorecard_body, hc, he, hval, hns,
          send_email_with_attachment, h0, h1]
      | ok j =>
        simp [submit_scorecard, submit_scorecard_body, hc, he, hval, hns,
          send_email_with_attachment, h0, h1]

/-- Witness for `exact_limit_not_rejected` at a body of exactly 16 MiB. -/
theorem exact_limit_not_rejected_witness :
    ((submit_scorecard (fun _ => Except.ok "id") "2025-06-01 12:00:00" "Acme" "a@acme.com"
        { filename := some "full.xlsx",
          content := Except.ok (List.replicate MAX_FILE_SIZE 0) }).1 =
      { status_code := 200,
        body := "Scorecard request submitted successfully! Check your email for confirmation." } ∨
     (submit_scorecard (fun _ => Except.ok "id") "2025-06-01 12:00:00" "Acme" "a@acme.com"
        { filename := some "full.xlsx",
          content := Except.ok (List.replicate MAX_FILE_SIZE 0) }).1 =
      { status_code := 500, body := "Failed to send email. Please try again later." }) ∧
    (submit_scorecard (fun _ => Except.ok "id") "2025-06-01 12:00:00" "Acme" "a@acme.com"
        { filename := some "full.xlsx",
          content := Except.ok (List.replicate MAX_FILE_SIZE 0) }).2 ≠ [] :=
  exact_limit_not_rejected _ _ _ _ _ _ (by decide) (by decide) (by decide)
    (by rw [List.length_replicate])
